import Mathlib

/-!
Verification of the book-catalog crawler and change detector.

Shallow embedding of the program's core data model and operations:

* `utilities/models.py` — `CrawlStatus`, `BookRating`, `Book`, `ChangeType`,
  `ChangeLog`, `CrawlCheckpoint` (Pydantic models become structures;
  Python `float` prices are modelled as exact rationals `ℚ`; wall-clock
  timestamps and Mongo `_id` generation are metadata outside the compared
  payloads and are modelled as plain fields / omitted where the code never
  reads them).
* `utilities/database.py` — `Database.compute_content_hash` (JSON
  serialization with sorted keys followed by SHA-256, both implemented
  executably below).
* `scheduler/detector.py` — `ChangeDetector.compare_books`.
* `crawler/scraper.py` — `BookScraper.fetch_page` (tenacity retry with
  `stop_after_attempt(3)`, `wait_exponential(multiplier=1, min=2, max=10)`,
  `retry_if_exception_type((httpx.HTTPError, httpx.TimeoutException))`,
  `reraise=True`) and `BookScraper.scrape_all_books` (pagination walk with
  per-page checkpointing and resume).

Python `or` on strings (falsy empty string) is modelled by `pyOr`;
HTTP failures are modelled by `FetchError` mirroring the `httpx`
exception hierarchy (`HTTPStatusError`, `TimeoutException` and transport
errors are all subclasses of `httpx.HTTPError`; `InvalidURL` is not).
-/

/-- Status of a crawl operation (`CrawlStatus` in `utilities/models.py`).
The third constructor renders the source's `PARTIAL`. -/
inductive CrawlStatus
  | success
  | failed
  | partialStatus
deriving DecidableEq, Repr

/-- Book rating enumeration (`BookRating`): five ordinal levels. -/
inductive BookRating
  | one
  | two
  | three
  | four
  | five
deriving DecidableEq, Repr

/-- A harvested record (`Book` in `utilities/models.py`). Prices are exact
rationals standing for the parsed two-decimal float prices; the crawl
timestamp is an abstract tick. -/
structure Book where
  name : String
  description : Option String := none
  category : String
  price_excl_tax : ℚ
  price_incl_tax : ℚ
  availability : String
  num_available : Nat
  num_reviews : Nat := 0
  rating : BookRating
  image_url : String
  source_url : String
  crawl_timestamp : Nat := 0
  crawl_status : CrawlStatus := CrawlStatus.success
  raw_html : Option String := none
  content_hash : Option String := none
  id : Option String := none
deriving DecidableEq, Repr

/-- Type of change detected (`ChangeType` in `utilities/models.py`). -/
inductive ChangeType
  | new_book
  | price_change
  | availability_change
  | content_change
  | deleted
deriving DecidableEq, Repr

/-- A value stored in a change event's `old_value` / `new_value` dict:
the code puts Python floats, ints and strings there. -/
inductive PyValue
  | num (q : ℚ)
  | int (n : Nat)
  | str (s : String)
deriving DecidableEq, Repr

/-- A change-log entry (`ChangeLog` in `utilities/models.py`).
`old_value` / `new_value` are small string-keyed dicts, modelled as
association lists. `change_timestamp` (wall clock, `default_factory`) and
the Mongo `_id` are creation metadata the comparison logic never reads and
are not part of the compared payload. -/
structure ChangeLog where
  book_id : String
  book_name : String
  change_type : ChangeType
  old_value : Option (List (String × PyValue)) := none
  new_value : Option (List (String × PyValue)) := none
  description : Option String := none
deriving DecidableEq, Repr

/-- Checkpoint for resuming crawls (`CrawlCheckpoint` in
`utilities/models.py`); `timestamp` and `_id` metadata omitted as above. -/
structure CrawlCheckpoint where
  checkpoint_id : String := "main_crawl"
  last_page_url : String
  last_book_url : Option String := none
  total_books_crawled : Nat := 0
  status : CrawlStatus := CrawlStatus.partialStatus
deriving DecidableEq, Repr

/-- Python `x or y` for an optional string `x`: `None` and the empty
string are falsy. Used for `old_book.id or str(old_book.source_url)` and
`current_page_url or start_url`. -/
def pyOr (o : Option String) (d : String) : String :=
  match o with
  | some s => if s = "" then d else s
  | none => d

/-- Two-digit zero padding for the cents part of a formatted price. -/
def pad2 (n : Nat) : String :=
  if n < 10 then "0" ++ toString n else toString n

/-- Python's `f"{x:.2f}"` on a price: fixed two decimals. On the exact
two-decimal prices the program handles, every rounding mode agrees; a
half-up rounding is used for the general rational. The cents value is
`⌊q * 100 + 1 / 2⌋ = ⌊(200 * num + den) / (2 * den)⌋`, computed on the
numerator/denominator representation. -/
def formatMoney (q : ℚ) : String :=
  let cents : Int := Int.fdiv (200 * q.num + (q.den : Int)) (2 * (q.den : Int))
  let a := cents.natAbs
  (if cents < 0 then "-" else "") ++ toString (a / 100) ++ "." ++ pad2 (a % 100)

/-- Mutable state of a `ChangeDetector` instance (`self.changes` and
`self.stats` in `scheduler/detector.py`). `compare_books` is a method on
this state. -/
structure DetectorStats where
  new_books : Nat := 0
  price_changes : Nat := 0
  availability_changes : Nat := 0
  content_changes : Nat := 0
  unchanged : Nat := 0
deriving DecidableEq, Repr

/-- Instance state of the detector (the `self` of the methods). -/
structure DetectorState where
  changes : List ChangeLog := []
  stats : DetectorStats := {}
deriving DecidableEq, Repr

/-- `ChangeDetector.compare_books` (`scheduler/detector.py`, lines
221-293): compare two versions of a book and detect specific changes.
Sequentially appends a `price_change` event when `price_incl_tax`
differs, an `availability_change` event when `num_available` differs, a
`content_change` event (with a `num_reviews` payload) when `num_reviews`
differs, and finally — only when no event was collected and the content
hashes differ — one generic payload-free `content_change` event.
The method reads nothing from `self`. -/
def ChangeDetector.compare_books (_self : DetectorState)
    (old_book new_book : Book) : List ChangeLog :=
  let book_id := pyOr old_book.id old_book.source_url
  let book_name := old_book.name
  let changes0 : List ChangeLog := []
  let changes1 :=
    if old_book.price_incl_tax ≠ new_book.price_incl_tax then
      let change : ChangeLog :=
        { book_id := book_id
          book_name := book_name
          change_type := ChangeType.price_change
          old_value := some [("price_incl_tax", PyValue.num old_book.price_incl_tax)]
          new_value := some [("price_incl_tax", PyValue.num new_book.price_incl_tax)]
          description := some ("Price changed from £" ++ formatMoney old_book.price_incl_tax
            ++ " to £" ++ formatMoney new_book.price_incl_tax) }
      changes0 ++ [change]
    else changes0
  let changes2 :=
    if old_book.num_available ≠ new_book.num_available then
      let change : ChangeLog :=
        { book_id := book_id
          book_name := book_name
          change_type := ChangeType.availability_change
          old_value := some [("num_available", PyValue.int old_book.num_available),
            ("availability", PyValue.str old_book.availability)]
          new_value := some [("num_available", PyValue.int new_book.num_available),
            ("availability", PyValue.str new_book.availability)]
          description := some ("Availability changed from "
            ++ toString old_book.num_available ++ " to " ++ toString new_book.num_available) }
      changes1 ++ [change]
    else changes1
  let changes3 :=
    if old_book.num_reviews ≠ new_book.num_reviews then
      let change : ChangeLog :=
        { book_id := book_id
          book_name := book_name
          change_type := ChangeType.content_change
          old_value := some [("num_reviews", PyValue.int old_book.num_reviews)]
          new_value := some [("num_reviews", PyValue.int new_book.num_reviews)]
          description := some ("Reviews changed from "
            ++ toString old_book.num_reviews ++ " to " ++ toString new_book.num_reviews) }
      changes2 ++ [change]
    else changes2
  if changes3 = [] ∧ old_book.content_hash ≠ new_book.content_hash then
    let change : ChangeLog :=
      { book_id := book_id
        book_name := book_name
        change_type := ChangeType.content_change
        description := some ("Content changed for '" ++ book_name
          ++ "' (rating or other field)") }
    changes3 ++ [change]
  else changes3

/-! ### Content fingerprint (`Database.compute_content_hash`)

`utilities/database.py` lines 282-304: build a dict of the seven tracked
fields, serialize it with `json.dumps(content, sort_keys=True)` and hash the
UTF-8 bytes with SHA-256, returning the lowercase hex digest. The JSON
serializer and SHA-256 are implemented executably below; SHA-256's round
constants are derived, as in the standard, from the fractional parts of the
cube and square roots of the first primes. -/

/-- The lowercase hex digit of a nibble, computed from its code point. -/
def hexDigit (n : Nat) : Char :=
  Char.ofNat (if n < 10 then 48 + n else 87 + n)

/-- JSON string escaping as `json.dumps` performs it (default
`ensure_ascii=True`): quote, backslash, the short control escapes, and
`\uXXXX` for other control or non-ASCII code points. -/
def jsonEscapeChar (c : Char) : String :=
  if c = '"' then "\\\""
  else if c = '\\' then "\\\\"
  else if c = '\n' then "\\n"
  else if c = '\t' then "\\t"
  else if c = '\r' then "\\r"
  else if c.toNat < 32 ∨ c.toNat > 126 then
    "\\u" ++ String.mk [hexDigit ((c.toNat >>> 12) % 16), hexDigit ((c.toNat >>> 8) % 16),
      hexDigit ((c.toNat >>> 4) % 16), hexDigit (c.toNat % 16)]
  else String.mk [c]

/-- A JSON string literal: quoted, escaped. -/
def jsonStr (s : String) : String :=
  "\"" ++ String.join (s.toList.map jsonEscapeChar) ++ "\""

/-- Smallest `k` (searched with fuel, enough for any double) such that
`d` divides `10 ^ k`, when one exists. -/
def tenPowExpAux (d : Nat) : Nat → Nat → Option Nat
  | 0, _ => none
  | fuel + 1, k => if d ∣ 10 ^ k then some k else tenPowExpAux d fuel (k + 1)

/-- Smallest power of ten a denominator divides, if any. -/
def tenPowExp (d : Nat) : Option Nat := tenPowExpAux d 1100 0

/-- Left-pad a digit string with zeros to length `n`. -/
def padLeftZeros (s : String) (n : Nat) : String :=
  String.mk (List.replicate (n - s.length) '0') ++ s

/-- `repr` of a Python float holding an exact decimal, as `json.dumps`
prints it: minimal decimal digits, at least one fractional digit
(`50.0`, `45.99`). Rationals outside the decimal domain (which no parsed
float produces) fall back to a fraction rendering. -/
def floatRepr (q : ℚ) : String :=
  match tenPowExp q.den with
  | some k =>
      let m : Int := q.num * (10 : Int) ^ k / (q.den : Int)
      let sign := if q.num < 0 then "-" else ""
      if k = 0 then sign ++ toString m.natAbs ++ ".0"
      else
        let s := padLeftZeros (toString m.natAbs) (k + 1)
        sign ++ (s.take (s.length - k)) ++ "." ++ (s.drop (s.length - k))
  | none => toString q.num ++ "/" ++ toString q.den

/-- The string value of a `BookRating` (`str`-enum: `json.dumps` emits the
member's string value). -/
def ratingStr : BookRating → String
  | BookRating.one => "One"
  | BookRating.two => "Two"
  | BookRating.three => "Three"
  | BookRating.four => "Four"
  | BookRating.five => "Five"

/-- `json.dumps(content, sort_keys=True)` for the tracked-field dict of
`compute_content_hash`: the seven keys in sorted order with the default
`", "` and `": "` separators. -/
def contentString (book : Book) : String :=
  "\x7b" ++ jsonStr "availability" ++ ": " ++ jsonStr book.availability
  ++ ", " ++ jsonStr "name" ++ ": " ++ jsonStr book.name
  ++ ", " ++ jsonStr "num_available" ++ ": " ++ toString book.num_available
  ++ ", " ++ jsonStr "num_reviews" ++ ": " ++ toString book.num_reviews
  ++ ", " ++ jsonStr "price_excl_tax" ++ ": " ++ floatRepr book.price_excl_tax
  ++ ", " ++ jsonStr "price_incl_tax" ++ ": " ++ floatRepr book.price_incl_tax
  ++ ", " ++ jsonStr "rating" ++ ": " ++ jsonStr (ratingStr book.rating)
  ++ "\x7d"

/-- Word mask: arithmetic is over `Nat` reduced mod `2 ^ 32`. -/
def mask32 : Nat := 2 ^ 32 - 1

/-- Right rotation of a 32-bit word. -/
def rotr32 (k x : Nat) : Nat := ((x >>> k) ||| (x <<< (32 - k))) &&& mask32

/-- SHA-256 big sigma 0. -/
def bsig0 (x : Nat) : Nat := rotr32 2 x ^^^ rotr32 13 x ^^^ rotr32 22 x

/-- SHA-256 big sigma 1. -/
def bsig1 (x : Nat) : Nat := rotr32 6 x ^^^ rotr32 11 x ^^^ rotr32 25 x

/-- SHA-256 small sigma 0. -/
def ssig0 (x : Nat) : Nat := rotr32 7 x ^^^ rotr32 18 x ^^^ (x >>> 3)

/-- SHA-256 small sigma 1. -/
def ssig1 (x : Nat) : Nat := rotr32 17 x ^^^ rotr32 19 x ^^^ (x >>> 10)

/-- SHA-256 choose. -/
def shaCh (x y z : Nat) : Nat := (x &&& y) ^^^ ((x ^^^ mask32) &&& z)

/-- SHA-256 majority. -/
def shaMaj (x y z : Nat) : Nat := (x &&& y) ^^^ (x &&& z) ^^^ (y &&& z)

/-- Integer cube root by bisection (fuel-bounded; invariant
`lo ^ 3 ≤ n < hi ^ 3`). -/
def icbrtAux (n : Nat) : Nat → Nat → Nat → Nat
  | 0, lo, _ => lo
  | fuel + 1, lo, hi =>
      if hi ≤ lo + 1 then lo
      else
        let mid := (lo + hi) / 2
        if mid ^ 3 ≤ n then icbrtAux n fuel mid hi else icbrtAux n fuel lo mid

/-- Integer cube root. -/
def icbrt (n : Nat) : Nat := icbrtAux n 200 0 (n + 1)

/-- The first 64 primes, whose cube roots yield the round constants. -/
def first64Primes : List Nat :=
  [2, 3, 5, 7, 11, 13, 17, 19, 23, 29, 31, 37, 41, 43, 47, 53,
   59, 61, 67, 71, 73, 79, 83, 89, 97, 101, 103, 107, 109, 113, 127, 131,
   137, 139, 149, 151, 157, 163, 167, 173, 179, 181, 191, 193, 197, 199, 211, 223,
   227, 229, 233, 239, 241, 251, 257, 263, 269, 271, 277, 281, 283, 293, 307, 311]

/-- SHA-256 round constants: first 32 bits of the fractional parts of the
cube roots of the first 64 primes. -/
def sha256K : List Nat := first64Primes.map fun p => icbrt (p * 2 ^ 96) % 2 ^ 32

/-- SHA-256 initial hash: first 32 bits of the fractional parts of the
square roots of the first 8 primes. -/
def sha256H0 : List Nat :=
  [2, 3, 5, 7, 11, 13, 17, 19].map fun p => Nat.sqrt (p * 2 ^ 64) % 2 ^ 32

/-- Big-endian 8-byte encoding of the bit length. -/
def be64 (n : Nat) : List Nat :=
  (List.range 8).map fun i => (n >>> (8 * (7 - i))) % 256

/-- SHA-256 message padding: `0x80`, zeros to 56 mod 64, 64-bit bit length. -/
def padMessage (msg : List Nat) : List Nat :=
  let l := msg.length
  msg ++ [128] ++ List.replicate ((119 - l % 64) % 64) 0 ++ be64 (8 * l)

/-- Pack bytes into big-endian 32-bit words. -/
def toWords : List Nat → List Nat
  | b0 :: b1 :: b2 :: b3 :: rest =>
      (((b0 * 256 + b1) * 256 + b2) * 256 + b3) :: toWords rest
  | _ => []

/-- Split a word list into 16-word blocks (fuel-bounded). -/
def toBlocks : Nat → List Nat → List (List Nat)
  | 0, _ => []
  | _, [] => []
  | fuel + 1, ws => ws.take 16 :: toBlocks fuel (ws.drop 16)

/-- Extend a 16-word block to the 64-word message schedule. -/
def scheduleAux : Nat → Array Nat → Array Nat
  | 0, w => w
  | fuel + 1, w =>
      let i := w.size
      let v := (ssig1 (w.getD (i - 2) 0) + w.getD (i - 7) 0
        + ssig0 (w.getD (i - 15) 0) + w.getD (i - 16) 0) % 2 ^ 32
      scheduleAux fuel (w.push v)

/-- The 64-word schedule of one block. -/
def schedule (block : List Nat) : Array Nat := scheduleAux 48 block.toArray

/-- The eight working registers of the compression function. -/
structure ShaRegs where
  a : Nat
  b : Nat
  c : Nat
  d : Nat
  e : Nat
  f : Nat
  g : Nat
  h : Nat

/-- One compression round. -/
def compressRound (r : ShaRegs) (kw : Nat × Nat) : ShaRegs :=
  let t1 := (r.h + bsig1 r.e + shaCh r.e r.f r.g + kw.1 + kw.2) % 2 ^ 32
  let t2 := (bsig0 r.a + shaMaj r.a r.b r.c) % 2 ^ 32
  ⟨(t1 + t2) % 2 ^ 32, r.a, r.b, r.c, (r.d + t1) % 2 ^ 32, r.e, r.f, r.g⟩

/-- Compress one 16-word block into the running hash. -/
def compressBlock (hs : List Nat) (block : List Nat) : List Nat :=
  let w := schedule block
  let init : ShaRegs := ⟨hs.getD 0 0, hs.getD 1 0, hs.getD 2 0, hs.getD 3 0,
    hs.getD 4 0, hs.getD 5 0, hs.getD 6 0, hs.getD 7 0⟩
  let r := (sha256K.zip w.toList).foldl compressRound init
  [(hs.getD 0 0 + r.a) % 2 ^ 32, (hs.getD 1 0 + r.b) % 2 ^ 32,
   (hs.getD 2 0 + r.c) % 2 ^ 32, (hs.getD 3 0 + r.d) % 2 ^ 32,
   (hs.getD 4 0 + r.e) % 2 ^ 32, (hs.getD 5 0 + r.f) % 2 ^ 32,
   (hs.getD 6 0 + r.g) % 2 ^ 32, (hs.getD 7 0 + r.h) % 2 ^ 32]

/-- SHA-256 of a byte sequence, as eight 32-bit words. -/
def sha256Words (msg : List Nat) : List Nat :=
  let ws := toWords (padMessage msg)
  (toBlocks ws.length ws).foldl compressBlock sha256H0

/-- Eight lowercase hex digits of a 32-bit word. -/
def wordHex (w : Nat) : String :=
  String.mk ((List.range 8).map fun i => hexDigit ((w >>> (4 * (7 - i))) % 16))

/-- Lowercase hex digest of SHA-256 over bytes (`hexdigest()`). -/
def sha256Hex (msg : List Nat) : String :=
  String.join ((sha256Words msg).map wordHex)

/-- UTF-8 bytes of a string (`str.encode()`). -/
def utf8Bytes (s : String) : List Nat := s.toUTF8.toList.map fun b => b.toNat

/-- `Database.compute_content_hash` (`utilities/database.py` 282-304):
SHA-256 hex digest of the sorted-key JSON serialization of the seven
tracked fields. -/
def Database.compute_content_hash (book : Book) : String :=
  sha256Hex (utf8Bytes (contentString book))

/-! ### Fetcher retry model (`BookScraper.fetch_page`)

`crawler/scraper.py` lines 55-84: the method is wrapped in tenacity's
`@retry(stop=stop_after_attempt(3), wait=wait_exponential(multiplier=1,
min=2, max=10), retry=retry_if_exception_type((httpx.HTTPError,
httpx.TimeoutException)), reraise=True)`. tenacity's loop after a failed
attempt number `k`: if the exception does not satisfy the retry predicate,
it is reraised at once (no wait); otherwise if `k` has reached the stop
bound (3), the last exception is reraised (no wait); otherwise the fetcher
sleeps `wait_exponential` of `k` and calls again. `wait_exponential`
computes `max(min, min(multiplier * exp_base ^ (k - 1), max))`.

The outcome of each HTTP call is an oracle `Nat → Except FetchError String`
giving the result of the `k`-th call (`k` counted from 1). The model
records the final outcome, the number of calls made, and the waits
performed between calls. -/

/-- The `httpx` exceptions a fetch can raise, as the retry predicate
distinguishes them. `HTTPStatusError` (any non-2xx status raised by
`raise_for_status`), `TimeoutException` and transport/connection errors
are all subclasses of `httpx.HTTPError`; `InvalidURL` (malformed URL) is
a direct `Exception` subclass, not an `httpx.HTTPError`. -/
inductive FetchError
  | statusError (code : Nat)
  | timeout
  | transportError
  | invalidURL
deriving DecidableEq, Repr

/-- Whether the exception is an `httpx.HTTPError`. -/
def isHTTPError : FetchError → Bool
  | FetchError.invalidURL => false
  | _ => true

/-- Whether the exception is an `httpx.TimeoutException`. -/
def isTimeoutException : FetchError → Bool
  | FetchError.timeout => true
  | _ => false

/-- `retry_if_exception_type((httpx.HTTPError, httpx.TimeoutException))`. -/
def retryCondition (e : FetchError) : Bool :=
  isHTTPError e || isTimeoutException e

/-- tenacity `wait_exponential(multiplier, max, exp_base, min)` evaluated
after failed attempt number `attemptNumber`. -/
def wait_exponential (multiplier mn mx expBase attemptNumber : Nat) : Nat :=
  max mn (min (multiplier * expBase ^ (attemptNumber - 1)) mx)

/-- The wait policy of `fetch_page`: `multiplier=1, min=2, max=10`. -/
def fetchWait (attemptNumber : Nat) : Nat := wait_exponential 1 2 10 2 attemptNumber

/-- Outcome of a `fetch_page` call together with its observable retry
trace. -/
structure FetchResult where
  outcome : Except FetchError String
  calls : Nat
  waits : List Nat

instance : DecidableEq (Except FetchError String) := fun a b =>
  match a, b with
  | Except.ok x, Except.ok y =>
      if h : x = y then isTrue (by rw [h]) else isFalse (by simp [h])
  | Except.error x, Except.error y =>
      if h : x = y then isTrue (by rw [h]) else isFalse (by simp [h])
  | Except.ok _, Except.error _ => isFalse (by simp)
  | Except.error _, Except.ok _ => isFalse (by simp)

instance : DecidableEq FetchResult := fun a b =>
  match a, b with
  | ⟨o₁, c₁, w₁⟩, ⟨o₂, c₂, w₂⟩ =>
      if h : o₁ = o₂ ∧ c₁ = c₂ ∧ w₁ = w₂ then
        isTrue (by obtain ⟨h1, h2, h3⟩ := h; rw [h1, h2, h3])
      else isFalse (by intro he; cases he; simp at h)

/-- The tenacity retry loop: `attemptNumber` is the number of the next
call, `remaining` how many attempts the stop bound still allows
(`remaining = 3 - attemptNumber + 1`; it never reaches 0 from
`fetch_page`). -/
def runAttempts (att : Nat → Except FetchError String) (attemptNumber : Nat) :
    Nat → FetchResult
  | 0 => ⟨Except.error FetchError.invalidURL, 0, []⟩
  | remaining + 1 =>
      match att attemptNumber with
      | Except.ok body => ⟨Except.ok body, 1, []⟩
      | Except.error e =>
          if retryCondition e = true ∧ remaining ≠ 0 then
            let w := fetchWait attemptNumber
            let rest := runAttempts att (attemptNumber + 1) remaining
            ⟨rest.outcome, rest.calls + 1, w :: rest.waits⟩
          else ⟨Except.error e, 1, []⟩

/-- `BookScraper.fetch_page`: up to 3 attempts against the call oracle. -/
def BookScraper.fetch_page (att : Nat → Except FetchError String) : FetchResult :=
  runAttempts att 1 3

/-! ### Pagination walk model (`BookScraper.scrape_all_books`)

`crawler/scraper.py` lines 129-242. A catalog site is modelled by what the
walk observes of it: `catalog` maps a page URL to the parsed page (its
detail-page URLs and optional next-page URL), with `none` standing for an
unrecoverable fetch/parse failure — `scrape_catalog_page` swallows any
exception and returns `([], None)`, so failure and a pageless catalog page
are indistinguishable to the caller. `bookOk` tells whether `scrape_book`
on a detail URL returns a result (counted into `total_books`) or `None`.
Detail pages within one catalog page are gathered concurrently in the
source; the item counter and checkpoint written after the page do not
depend on completion order, so the model counts them in list order. -/

/-- A parsed catalog page: detail URLs and the optional next page. -/
structure Page where
  bookUrls : List String
  nextPage : Option String
deriving DecidableEq, Repr

/-- The site as observed by the walk. -/
structure Site where
  catalog : String → Option Page
  bookOk : String → Bool

/-- `BookScraper.scrape_catalog_page` (lines 129-153): on any error,
`([], None)`. -/
def BookScraper.scrape_catalog_page (site : Site) (page_url : String) :
    List String × Option String :=
  match site.catalog page_url with
  | some p => (p.bookUrls, p.nextPage)
  | none => ([], none)

/-- Observable run state: the `total_books` counter, every detail URL for
which `scrape_book` was dispatched, and the checkpoints saved in order
(`save_checkpoint` upserts by `checkpoint_id`, so the effective stored
checkpoint is the last of the list). -/
structure ScrapeState where
  totalBooks : Nat
  fetchedBooks : List String
  checkpoints : List CrawlCheckpoint
deriving DecidableEq, Repr

/-- `settings.target_url + "/catalogue/page-1.html"`, the fallback start. -/
def defaultStartUrl : String := "https://books.toscrape.com/catalogue/page-1.html"

/-- The `while current_page_url:` loop of `scrape_all_books` (lines
183-221), fuel-bounded: fetch the catalog page; an empty URL list breaks
the loop; otherwise dispatch every detail page, add the successful ones to
the counter, save a per-page checkpoint (status `PARTIAL` when a next page
exists, else `SUCCESS`), and advance. Returns the state and the value of
`current_page_url` at loop exit (`none` when the next-link chain ended). -/
def walkLoop (site : Site) : Nat → Option String → ScrapeState → ScrapeState × Option String
  | _, none, st => (st, none)
  | 0, some u, st => (st, some u)
  | fuel + 1, some u, st =>
      if u = "" then (st, some u)
      else
        let fetched := BookScraper.scrape_catalog_page site u
        let book_urls := fetched.1
        let next_page_url := fetched.2
        if book_urls = [] then (st, some u)
        else
          let total := st.totalBooks + (book_urls.filter site.bookOk).length
          let cp : CrawlCheckpoint :=
            { checkpoint_id := "main_crawl"
              last_page_url := u
              last_book_url := book_urls.getLast?
              total_books_crawled := total
              status := if next_page_url.isSome then CrawlStatus.partialStatus
                else CrawlStatus.success }
          walkLoop site fuel next_page_url
            { totalBooks := total
              fetchedBooks := st.fetchedBooks ++ book_urls
              checkpoints := st.checkpoints ++ [cp] }

/-- The resume seeding of `scrape_all_books` (lines 166-176): with
`resume` and a stored checkpoint, the walk starts at its `last_page_url`
and the counter at its `total_books_crawled`; otherwise at the passed (or
default) start URL with counter 0. -/
def resumeStart (start_url : Option String) (resume : Bool)
    (stored : Option CrawlCheckpoint) : String × Nat :=
  match resume, stored with
  | true, some checkpoint =>
      (pyOr (some checkpoint.last_page_url) defaultStartUrl,
        checkpoint.total_books_crawled)
  | _, _ => (pyOr start_url defaultStartUrl, 0)

/-- `BookScraper.scrape_all_books` (lines 155-242): seed, walk, then
unconditionally write the terminal checkpoint
`CrawlCheckpoint(checkpoint_id="main_crawl", last_page_url=current_page_url
or start_url, total_books_crawled=total, status=CrawlStatus.SUCCESS)`. -/
def BookScraper.scrape_all_books (site : Site) (fuel : Nat)
    (start_url : Option String) (resume : Bool)
    (stored : Option CrawlCheckpoint) : ScrapeState :=
  let seed := resumeStart start_url resume stored
  let start := seed.1
  let w := walkLoop site fuel (some start) ⟨seed.2, [], []⟩
  let final : CrawlCheckpoint :=
    { checkpoint_id := "main_crawl"
      last_page_url := pyOr w.2 start
      last_book_url := none
      total_books_crawled := w.1.totalBooks
      status := CrawlStatus.success }
  { w.1 with checkpoints := w.1.checkpoints ++ [final] }

/-! ### Characterization of `compare_books`

The four conditional appends of `compare_books` in closed form: one
(possibly empty) singleton per tracked field in source order, and the
generic event exactly when no tracked field differs but the hashes do. -/

/-- The `price_change` event `compare_books` builds. -/
def priceChangeEvent (old_book new_book : Book) : ChangeLog :=
  { book_id := pyOr old_book.id old_book.source_url
    book_name := old_book.name
    change_type := ChangeType.price_change
    old_value := some [("price_incl_tax", PyValue.num old_book.price_incl_tax)]
    new_value := some [("price_incl_tax", PyValue.num new_book.price_incl_tax)]
    description := some ("Price changed from £" ++ formatMoney old_book.price_incl_tax
      ++ " to £" ++ formatMoney new_book.price_incl_tax) }

/-- The `availability_change` event `compare_books` builds. -/
def availabilityChangeEvent (old_book new_book : Book) : ChangeLog :=
  { book_id := pyOr old_book.id old_book.source_url
    book_name := old_book.name
    change_type := ChangeType.availability_change
    old_value := some [("num_available", PyValue.int old_book.num_available),
      ("availability", PyValue.str old_book.availability)]
    new_value := some [("num_available", PyValue.int new_book.num_available),
      ("availability", PyValue.str new_book.availability)]
    description := some ("Availability changed from "
      ++ toString old_book.num_available ++ " to " ++ toString new_book.num_available) }

/-- The review-count event `compare_books` builds (its kind is
`content_change`, with a `num_reviews` payload). -/
def reviewsChangeEvent (old_book new_book : Book) : ChangeLog :=
  { book_id := pyOr old_book.id old_book.source_url
    book_name := old_book.name
    change_type := ChangeType.content_change
    old_value := some [("num_reviews", PyValue.int old_book.num_reviews)]
    new_value := some [("num_reviews", PyValue.int new_book.num_reviews)]
    description := some ("Reviews changed from "
      ++ toString old_book.num_reviews ++ " to " ++ toString new_book.num_reviews) }

/-- The generic payload-free `content_change` fallback event. -/
def genericContentEvent (old_book : Book) : ChangeLog :=
  { book_id := pyOr old_book.id old_book.source_url
    book_name := old_book.name
    change_type := ChangeType.content_change
    description := some ("Content changed for '" ++ old_book.name
      ++ "' (rating or other field)") }

/-! ### Concrete fixtures -/

/-- An empty detector state (fresh `ChangeDetector()`). -/
def detector0 : DetectorState := {}

/-- An old stored record: price 50.00, 10 available, 5 reviews. -/
def book50 : Book :=
  { name := "Test Book"
    description := some "Old description"
    category := "Fiction"
    price_excl_tax := 50
    price_incl_tax := 50
    availability := "In stock (10 available)"
    num_available := 10
    num_reviews := 5
    rating := BookRating.three
    image_url := "https://example.com/old.jpg"
    source_url := "https://books.toscrape.com/test"
    content_hash := some "H1"
    id := some "id1" }

/-- The same record re-extracted with price 45.00 (fingerprint differs). -/
def book45 : Book :=
  { book50 with price_excl_tax := 45, price_incl_tax := 45
                content_hash := some "H2", id := none }

/-- The same record re-extracted with only the rating drifted: all three
tracked comparison fields equal, fingerprint differs. -/
def bookRatingDrift : Book :=
  { book50 with rating := BookRating.four, content_hash := some "H2", id := none }


/-- The stored record with every untracked field changed — image URL,
description, category, source URL, crawl metadata, stored hash, id —
and all seven tracked fields equal to `book50`. -/
def bookUntrackedTwin : Book :=
  { book50 with
      description := some "A completely different description"
      category := "Poetry"
      image_url := "https://example.com/new.jpg"
      source_url := "https://books.toscrape.com/other"
      crawl_timestamp := 42
      crawl_status := CrawlStatus.partialStatus
      raw_html := some "<html></html>"
      content_hash := some "H9"
      id := none }

/-- A call oracle that always returns HTTP 404 (`HTTPStatusError`). -/
def attAll404 : Nat → Except FetchError String :=
  fun _ => Except.error (FetchError.statusError 404)

/-- A call oracle that always fails with a malformed URL
(`httpx.InvalidURL`). -/
def attBadURL : Nat → Except FetchError String :=
  fun _ => Except.error FetchError.invalidURL

/-- A call oracle that times out twice, then succeeds. -/
def attThirdOk : Nat → Except FetchError String :=
  fun n => if n < 3 then Except.error FetchError.timeout else Except.ok "body"

/-- A page is closed with respect to a set `reach` of page URLs and a set
`good` of detail URLs: if the walk can observe it, its detail URLs are in
`good` and its next link stays in `reach`. -/
def pageClosed (site : Site) (reach good : List String) (p : String) : Bool :=
  match site.catalog p with
  | none => true
  | some pg =>
      pg.bookUrls.all (fun b => good.contains b) &&
        (match pg.nextPage with
         | none => true
         | some q => reach.contains q)

/-- Every page of `reach` is closed: the walk started inside `reach` can
only ever dispatch detail URLs from `good`. -/
def siteClosed (site : Site) (reach good : List String) : Bool :=
  reach.all (pageClosed site reach good)

/-- A three-page forward chain `p1 → p2 → p3` with five detail pages. -/
def siteChain : Site :=
  { catalog := fun u =>
      if u = "p1" then some { bookUrls := ["b11", "b12"], nextPage := some "p2" }
      else if u = "p2" then some { bookUrls := ["b21", "b22"], nextPage := some "p3" }
      else if u = "p3" then some { bookUrls := ["b31"], nextPage := none }
      else none
    bookOk := fun _ => true }

/-- The checkpoint `scrape_all_books` saves after catalog page 1 of
`siteChain`. -/
def cpPage1 : CrawlCheckpoint :=
  { checkpoint_id := "main_crawl", last_page_url := "p1", last_book_url := some "b12",
    total_books_crawled := 2, status := CrawlStatus.partialStatus }

/-- The checkpoint `scrape_all_books` saves after catalog page 2 of
`siteChain`. -/
def cpPage2 : CrawlCheckpoint :=
  { checkpoint_id := "main_crawl", last_page_url := "p2", last_book_url := some "b22",
    total_books_crawled := 4, status := CrawlStatus.partialStatus }

/-- A site whose first catalog page succeeds and whose second page fails
unrecoverably (`catalog "p2" = none`). -/
def siteBroken : Site :=
  { catalog := fun u =>
      if u = "p1" then some { bookUrls := ["b11"], nextPage := some "p2" } else none
    bookOk := fun _ => true }

/-- `compare_books` in closed form. -/
theorem compare_books_cases (s : DetectorState) (o n : Book) :
    ChangeDetector.compare_books s o n =
      (if o.price_incl_tax ≠ n.price_incl_tax then [priceChangeEvent o n] else [])
      ++ (if o.num_available ≠ n.num_available then [availabilityChangeEvent o n] else [])
      ++ (if o.num_reviews ≠ n.num_reviews then [reviewsChangeEvent o n] else [])
      ++ (if o.price_incl_tax = n.price_incl_tax ∧ o.num_available = n.num_available ∧
            o.num_reviews = n.num_reviews ∧ o.content_hash ≠ n.content_hash
          then [genericContentEvent o] else []) := by
  unfold ChangeDetector.compare_books priceChangeEvent availabilityChangeEvent
    reviewsChangeEvent genericContentEvent
  split_ifs <;> simp_all

/-- C1: when the fingerprints differ but the three tracked comparison
fields (`price_incl_tax`, `num_available`, `num_reviews`) agree,
`compare_books` returns exactly the one generic `content_change` event,
which carries no `old_value`/`new_value` payload; and for every pair of
snapshots, a payload-free generic `content_change` event in the result
forces the result to be exactly that one event, so it never appears
alongside any field-specific event. -/
theorem compare_books_generic_exclusive (s : DetectorState) (o n : Book) :
    (o.price_incl_tax = n.price_incl_tax → o.num_available = n.num_available →
      o.num_reviews = n.num_reviews → o.content_hash ≠ n.content_hash →
      ChangeDetector.compare_books s o n = [genericContentEvent o] ∧
        (genericContentEvent o).old_value = none ∧
        (genericContentEvent o).new_value = none)
    ∧ (∀ e ∈ ChangeDetector.compare_books s o n,
        e.change_type = ChangeType.content_change → e.old_value = none →
        e.new_value = none → ChangeDetector.compare_books s o n = [e]) := by
  constructor
  · intro h1 h2 h3 h4
    rw [compare_books_cases]
    simp [h1, h2, h3, h4, genericContentEvent]
  · intro e he hct hov hnv
    rw [compare_books_cases] at he ⊢
    split_ifs at he ⊢ <;>
      simp_all [priceChangeEvent, availabilityChangeEvent, reviewsChangeEvent,
        genericContentEvent] <;>
      casesm* _ ∨ _ <;> simp_all

/-- C1 witness: an old record and a re-extraction whose hash drifted with
the rating while the three tracked fields stayed equal yield the single
payload-free generic event. -/
theorem compare_books_generic_exclusive_witness :
    ChangeDetector.compare_books detector0 book50 bookRatingDrift =
        [genericContentEvent book50] ∧
      (genericContentEvent book50).old_value = none ∧
      (genericContentEvent book50).new_value = none :=
  (compare_books_generic_exclusive detector0 book50 bookRatingDrift).1
    rfl rfl rfl (by decide)

/-- C5: for the old record at price 50.00 (10 available, 5 reviews) and
the same record re-extracted at price 45.00 with the other tracked fields
equal and fingerprints differing, `compare_books` returns exactly one
`price_change` event whose `old_value` records `price_incl_tax = 50.00`
and whose `new_value` records `price_incl_tax = 45.00`. -/
theorem compare_books_price_scenario :
    ChangeDetector.compare_books detector0 book50 book45 =
      [{ book_id := "id1"
         book_name := "Test Book"
         change_type := ChangeType.price_change
         old_value := some [("price_incl_tax", PyValue.num 50)]
         new_value := some [("price_incl_tax", PyValue.num 45)]
         description := some "Price changed from £50.00 to £45.00" }] := by
  decide

/-- C8: the comparison is pure — it reads nothing from the detector
instance (or any other ambient state), so running it twice on the same
two snapshots yields the same event list, kinds, values and descriptions
included. -/
theorem compare_books_idempotent (s₁ s₂ : DetectorState) (old_book new_book : Book) :
    ChangeDetector.compare_books s₁ old_book new_book =
      ChangeDetector.compare_books s₂ old_book new_book := rfl

/-- C9: differing content hashes always produce at least one event —
a field-specific one when a tracked field differs, else the generic
fallback fires. -/
theorem compare_books_hash_ne_nonempty (s : DetectorState) (o n : Book)
    (h : o.content_hash ≠ n.content_hash) :
    ChangeDetector.compare_books s o n ≠ [] := by
  rw [compare_books_cases]
  by_cases h1 : o.price_incl_tax = n.price_incl_tax <;>
    by_cases h2 : o.num_available = n.num_available <;>
    by_cases h3 : o.num_reviews = n.num_reviews <;>
    simp [h1, h2, h3, h]

/-- C9 witness: the price-drop scenario has differing hashes and a
nonempty result. -/
theorem compare_books_hash_ne_nonempty_witness :
    ChangeDetector.compare_books detector0 book50 book45 ≠ [] :=
  compare_books_hash_ne_nonempty detector0 book50 book45 (by decide)

/-- C10: every event the comparison returns has kind `price_change`,
`availability_change` or `content_change` — never `new_book` or `deleted`
— and the result holds at most 4 events (in fact at most 3: the generic
event only fires when the three field slots are empty). -/
theorem compare_books_kinds_bound (s : DetectorState) (o n : Book) :
    (∀ e ∈ ChangeDetector.compare_books s o n,
      e.change_type = ChangeType.price_change ∨
      e.change_type = ChangeType.availability_change ∨
      e.change_type = ChangeType.content_change)
    ∧ (ChangeDetector.compare_books s o n).length ≤ 4 := by
  rw [compare_books_cases]
  constructor
  · intro e he
    split_ifs at he <;>
      simp_all [priceChangeEvent, availabilityChangeEvent, reviewsChangeEvent,
        genericContentEvent] <;>
      casesm* _ ∨ _ <;> simp_all [priceChangeEvent, availabilityChangeEvent,
        reviewsChangeEvent, genericContentEvent]
  · split_ifs <;> simp

/-- C10 witness: the price event of the concrete scenario is classified
among the three comparison kinds. -/
theorem compare_books_kinds_bound_witness :
    (priceChangeEvent book50 book45).change_type = ChangeType.price_change ∨
    (priceChangeEvent book50 book45).change_type = ChangeType.availability_change ∨
    (priceChangeEvent book50 book45).change_type = ChangeType.content_change :=
  (compare_books_kinds_bound detector0 book50 book45).1
    (priceChangeEvent book50 book45) (by decide)

/-- C4: the content fingerprint is a function of the seven tracked fields
only (`name`, both prices, `availability`, `num_available`,
`num_reviews`, `rating`): records agreeing on them get equal hashes, no
matter how the untracked fields differ. -/
theorem compute_content_hash_tracked (b₁ b₂ : Book)
    (hname : b₁.name = b₂.name)
    (hpe : b₁.price_excl_tax = b₂.price_excl_tax)
    (hpi : b₁.price_incl_tax = b₂.price_incl_tax)
    (hav : b₁.availability = b₂.availability)
    (hna : b₁.num_available = b₂.num_available)
    (hnr : b₁.num_reviews = b₂.num_reviews)
    (hr : b₁.rating = b₂.rating) :
    Database.compute_content_hash b₁ = Database.compute_content_hash b₂ := by
  unfold Database.compute_content_hash contentString
  rw [hname, hpe, hpi, hav, hna, hnr, hr]

/-- C4 witness: `book50` and its untracked-field twin hash equal. -/
theorem compute_content_hash_tracked_witness :
    Database.compute_content_hash book50 = Database.compute_content_hash bookUntrackedTwin :=
  compute_content_hash_tracked book50 bookUntrackedTwin rfl rfl rfl rfl rfl rfl rfl

/-- The retry loop makes at most `remaining` calls. -/
theorem runAttempts_calls_le (att : Nat → Except FetchError String) :
    ∀ (attemptNumber remaining : Nat),
      (runAttempts att attemptNumber remaining).calls ≤ remaining := by
  intro a r
  induction r generalizing a with
  | zero => simp [runAttempts]
  | succ r ih =>
      rw [runAttempts]
      split
      · exact Nat.succ_le_succ (Nat.zero_le r)
      · split
        · exact Nat.succ_le_succ (ih (a + 1))
        · exact Nat.succ_le_succ (Nat.zero_le r)

/-- C3 counterexample: a fetch whose every attempt fails with HTTP 404 —
a 4xx other than rate-limiting — is retried: 3 calls and two backoff
waits happen, not the single immediate failure the claim states
(`httpx.HTTPStatusError` is a subclass of `httpx.HTTPError`, which the
retry predicate accepts). -/
theorem fetch_page_4xx_retried :
    BookScraper.fetch_page attAll404 =
      { outcome := Except.error (FetchError.statusError 404), calls := 3, waits := [2, 2] }
    ∧ ¬ (BookScraper.fetch_page attAll404).calls = 1
    ∧ ¬ (BookScraper.fetch_page attAll404).waits = [] := by
  refine ⟨rfl, ?_, ?_⟩ <;> decide

/-- C3 amended: only a failure that is not an `httpx.HTTPError` — the
malformed-URL `InvalidURL` — surfaces immediately after a single attempt
with no retry and no wait; an HTTP 4xx status raises `HTTPStatusError`,
which is an `httpx.HTTPError` and is always retried. -/
theorem fetch_page_nonretryable (att : Nat → Except FetchError String) (e : FetchError)
    (h1 : att 1 = Except.error e) (h2 : retryCondition e = false) :
    BookScraper.fetch_page att =
      { outcome := Except.error e, calls := 1, waits := [] }
    ∧ retryCondition FetchError.invalidURL = false
    ∧ (∀ code, retryCondition (FetchError.statusError code) = true) := by
  refine ⟨?_, rfl, fun _ => rfl⟩
  simp [BookScraper.fetch_page, runAttempts, h1, h2]

/-- C3 witness: the malformed-URL oracle fails after exactly one call. -/
theorem fetch_page_nonretryable_witness :
    BookScraper.fetch_page attBadURL =
      { outcome := Except.error FetchError.invalidURL, calls := 1, waits := [] }
    ∧ retryCondition FetchError.invalidURL = false
    ∧ (∀ code, retryCondition (FetchError.statusError code) = true) :=
  fetch_page_nonretryable attBadURL FetchError.invalidURL rfl rfl

/-- C7 counterexample: a fetch that fails twice (timeouts) and succeeds
on the third attempt does return the body after exactly 3 calls, but the
two waits between the calls are both 2 time units — `wait_exponential`
evaluates `max(2, min(2 ^ (k - 1), 10))`, which is 2 for both the first
and the second failed attempt — so the waits are not strictly
increasing. -/
theorem fetch_page_waits_equal :
    BookScraper.fetch_page attThirdOk =
      { outcome := Except.ok "body", calls := 3, waits := [2, 2] }
    ∧ ¬ List.Pairwise (· < ·) (BookScraper.fetch_page attThirdOk).waits := by
  refine ⟨rfl, ?_⟩
  decide

/-- C7 amended: at most 3 attempts; two retryable failures followed by a
success return the body after exactly 3 calls with waits of 2 and 2
between them; three failures surface the last error after the same trace;
the wait after attempt `k` is at least 2, at most 10, and non-decreasing
in `k` (strict growth only appears from the third wait on, which the
3-attempt stop bound never reaches). -/
theorem fetch_page_retry_behavior (att : Nat → Except FetchError String)
    (e₁ e₂ : FetchError) (h1 : att 1 = Except.error e₁) (h2 : att 2 = Except.error e₂)
    (hr1 : retryCondition e₁ = true) (hr2 : retryCondition e₂ = true) :
    (∀ att2 : Nat → Except FetchError String, (BookScraper.fetch_page att2).calls ≤ 3)
    ∧ (∀ body, att 3 = Except.ok body →
        BookScraper.fetch_page att = { outcome := Except.ok body, calls := 3, waits := [2, 2] })
    ∧ (∀ e₃, att 3 = Except.error e₃ →
        BookScraper.fetch_page att = { outcome := Except.error e₃, calls := 3, waits := [2, 2] })
    ∧ fetchWait 1 = 2 ∧ fetchWait 2 = 2
    ∧ (∀ k, 2 ≤ fetchWait k ∧ fetchWait k ≤ 10 ∧ fetchWait k ≤ fetchWait (k + 1)) := by
  refine ⟨fun att2 => runAttempts_calls_le att2 1 3, ?_, ?_, rfl, rfl, ?_⟩
  · intro body h3
    simp [BookScraper.fetch_page, runAttempts, h1, h2, h3, hr1, hr2, fetchWait,
      wait_exponential]
  · intro e₃ h3
    simp [BookScraper.fetch_page, runAttempts, h1, h2, h3, hr1, hr2, fetchWait,
      wait_exponential]
  · intro k
    unfold fetchWait wait_exponential
    refine ⟨le_max_left 2 _, max_le (by norm_num) (min_le_right _ _), ?_⟩
    refine max_le_max le_rfl (min_le_min ?_ le_rfl)
    simp only [one_mul, Nat.add_sub_cancel]
    exact Nat.pow_le_pow_right (by norm_num) (Nat.sub_le k 1)

/-- C7 witness: the twice-timeout oracle instantiates the amended
behavior. -/
theorem fetch_page_retry_behavior_witness :
    (∀ att2 : Nat → Except FetchError String, (BookScraper.fetch_page att2).calls ≤ 3)
    ∧ (∀ body, attThirdOk 3 = Except.ok body →
        BookScraper.fetch_page attThirdOk =
          { outcome := Except.ok body, calls := 3, waits := [2, 2] })
    ∧ (∀ e₃, attThirdOk 3 = Except.error e₃ →
        BookScraper.fetch_page attThirdOk =
          { outcome := Except.error e₃, calls := 3, waits := [2, 2] })
    ∧ fetchWait 1 = 2 ∧ fetchWait 2 = 2
    ∧ (∀ k, 2 ≤ fetchWait k ∧ fetchWait k ≤ 10 ∧ fetchWait k ≤ fetchWait (k + 1)) :=
  fetch_page_retry_behavior attThirdOk FetchError.timeout FetchError.timeout
    rfl rfl rfl rfl

/-- Detail URLs dispatched by the walk from a page of `reach` all lie in
`good`, provided `reach` is closed. -/
theorem walkLoop_fetched_subset (site : Site) (reach good : List String)
    (hc : siteClosed site reach good = true) :
    ∀ (fuel : Nat) (cur : Option String) (st : ScrapeState),
      (∀ u, cur = some u → u ∈ reach) →
      ∀ b ∈ ((walkLoop site fuel cur st).1).fetchedBooks,
        b ∈ st.fetchedBooks ∨ b ∈ good := by
  intro fuel
  induction fuel with
  | zero =>
      intro cur st hcur b hb
      cases cur <;> simp [walkLoop] at hb <;> exact Or.inl hb
  | succ fuel ih =>
      intro cur st hcur b hb
      cases cur with
      | none =>
          simp [walkLoop] at hb
          exact Or.inl hb
      | some u =>
          have hu : u ∈ reach := hcur u rfl
          have hpc : pageClosed site reach good u = true := by
            have hall := List.all_eq_true.mp hc
            simpa using hall u hu
          by_cases hemp : u = ""
          · rw [walkLoop, if_pos hemp] at hb
            exact Or.inl hb
          · rw [walkLoop, if_neg hemp] at hb
            cases hcat : site.catalog u with
            | none =>
                simp [BookScraper.scrape_catalog_page, hcat] at hb
                exact Or.inl hb
            | some pg =>
                simp only [pageClosed, hcat, Bool.and_eq_true] at hpc
                obtain ⟨hbooks, hnext⟩ := hpc
                simp only [BookScraper.scrape_catalog_page, hcat] at hb
                by_cases hb0 : pg.bookUrls = []
                · rw [if_pos hb0] at hb
                  exact Or.inl hb
                · rw [if_neg hb0] at hb
                  have hrec := ih pg.nextPage
                    { totalBooks := st.totalBooks + (pg.bookUrls.filter site.bookOk).length
                      fetchedBooks := st.fetchedBooks ++ pg.bookUrls
                      checkpoints := st.checkpoints ++
                        [{ checkpoint_id := "main_crawl"
                           last_page_url := u
                           last_book_url := pg.bookUrls.getLast?
                           total_books_crawled :=
                             st.totalBooks + (pg.bookUrls.filter site.bookOk).length
                           status := if pg.nextPage.isSome then CrawlStatus.partialStatus
                             else CrawlStatus.success }] }
                    (fun q hq => by
                      rw [hq] at hnext
                      simpa using hnext)
                    b hb
                  rcases hrec with hmem | hgood
                  · rcases List.mem_append.mp hmem with hold | hnew
                    · exact Or.inl hold
                    · right
                      have := List.all_eq_true.mp hbooks b hnew
                      simpa using this
                  · exact Or.inr hgood

/-- C2 counterexample: on the chain site, the checkpoint saved after
catalog page 1 records `last_page_url = "p1"`; resuming from it restarts
the walk at page 1 itself, so its detail pages — `"b11"` among them — are
fetched again, contradicting the claim that no item of pages 1..N is
re-fetched. -/
theorem scrape_resume_refetches_checkpointed_page :
    (BookScraper.scrape_all_books siteChain 10 (some "p1") false none).checkpoints.head? =
      some cpPage1
    ∧ siteChain.catalog "p1" =
        some { bookUrls := ["b11", "b12"], nextPage := some "p2" }
    ∧ "b11" ∈ (BookScraper.scrape_all_books siteChain 10 none true (some cpPage1)).fetchedBooks := by
  refine ⟨rfl, rfl, ?_⟩
  decide

/-- C2 amended: resuming with a stored checkpoint starts the walk at the
checkpointed `last_page_url` itself (page N, whose items are re-fetched)
with the item counter seeded from `total_books_crawled`, ignoring the
passed start URL; and the resumed walk only dispatches detail URLs of
pages reachable from the checkpointed page — so, for a forward chain,
items of pages 1..N-1 are never re-fetched. -/
theorem scrape_all_books_resume (site : Site) (fuel : Nat) (su : Option String)
    (cp : CrawlCheckpoint) (reach good : List String)
    (hstart : pyOr (some cp.last_page_url) defaultStartUrl ∈ reach)
    (hclosed : siteClosed site reach good = true) :
    resumeStart su true (some cp) =
        (pyOr (some cp.last_page_url) defaultStartUrl, cp.total_books_crawled)
    ∧ BookScraper.scrape_all_books site fuel su true (some cp) =
        BookScraper.scrape_all_books site fuel none true (some cp)
    ∧ ∀ b ∈ (BookScraper.scrape_all_books site fuel su true (some cp)).fetchedBooks,
        b ∈ good := by
  refine ⟨rfl, rfl, ?_⟩
  intro b hb
  simp only [BookScraper.scrape_all_books, resumeStart] at hb
  have hsub := walkLoop_fetched_subset site reach good hclosed fuel
      (some (pyOr (some cp.last_page_url) defaultStartUrl))
      ⟨cp.total_books_crawled, [], []⟩
      (fun u hu => by injection hu with hu; rw [← hu]; exact hstart)
      b hb
  simpa using hsub

/-- C2 witness: resuming `siteChain` from the page-2 checkpoint with an
(ignored) explicit start URL dispatches only detail URLs of pages 2 and
3 — never `"b11"` or `"b12"` of page 1 — and seeds the counter with 4. -/
theorem scrape_all_books_resume_witness :
    resumeStart (some "ignored") true (some cpPage2) =
        (pyOr (some cpPage2.last_page_url) defaultStartUrl, cpPage2.total_books_crawled)
    ∧ BookScraper.scrape_all_books siteChain 10 (some "ignored") true (some cpPage2) =
        BookScraper.scrape_all_books siteChain 10 none true (some cpPage2)
    ∧ ∀ b ∈ (BookScraper.scrape_all_books siteChain 10 (some "ignored") true
          (some cpPage2)).fetchedBooks,
        b ∈ ["b21", "b22", "b31"] :=
  scrape_all_books_resume siteChain 10 (some "ignored") cpPage2 ["p2", "p3"]
    ["b21", "b22", "b31"] (by decide) (by decide)

/-- C6 counterexample: on `siteBroken` the walk aborts at page `"p2"`
(unrecoverable catalog failure), and a final checkpoint is written — but
its `last_page_url` is `"p2"`, the failed page rather than the last
successfully processed `"p1"`, and its status is `success`, not
`partial`, although the catalog was cut short. The checkpoint that does
mark the last good position with status `partial` is the per-page one
the final upsert overwrites. -/
theorem scrape_abort_final_checkpoint :
    (BookScraper.scrape_all_books siteBroken 10 (some "p1") false none).checkpoints =
      [{ checkpoint_id := "main_crawl", last_page_url := "p1", last_book_url := some "b11",
         total_books_crawled := 1, status := CrawlStatus.partialStatus },
       { checkpoint_id := "main_crawl", last_page_url := "p2", last_book_url := none,
         total_books_crawled := 1, status := CrawlStatus.success }]
    ∧ siteBroken.catalog "p2" = none
    ∧ CrawlStatus.success ≠ CrawlStatus.partialStatus := by
  refine ⟨rfl, rfl, ?_⟩
  decide

/-- C6 amended: every run — aborted or not — ends by upserting a final
checkpoint, which is therefore the last one saved: its status is always
`success`, its `last_book_url` is cleared, and its `last_page_url` is the
`current_page_url` at loop exit (the failed page when the walk was cut
short there) or, when the next-link chain ended or that URL is falsy, the
start URL. -/
theorem scrape_all_books_final_checkpoint (site : Site) (fuel : Nat)
    (su : Option String) (resume : Bool) (stored : Option CrawlCheckpoint) :
    (BookScraper.scrape_all_books site fuel su resume stored).checkpoints.getLast? =
      some { checkpoint_id := "main_crawl"
             last_page_url :=
               pyOr (walkLoop site fuel (some (resumeStart su resume stored).1)
                   ⟨(resumeStart su resume stored).2, [], []⟩).2
                 (resumeStart su resume stored).1
             last_book_url := none
             total_books_crawled :=
               (BookScraper.scrape_all_books site fuel su resume stored).totalBooks
             status := CrawlStatus.success } := by
  simp [BookScraper.scrape_all_books, List.getLast?_concat]
